import Mathlib

/-!
Verification of the book-collection HTTP API (Flask app: `app.py`, `models.py`).

The embedding models the two tables (`Books`, `BorrowRecords`) as lists in a
`DBState`, a JSON object body as an association list from keys to string
values, and each route handler of `app.py` as a pure function from the state
(and the parsed request) to an HTTP status code, a response body and the
successor state.  The SQL fragments the handlers issue (`LIKE`,
`GROUP BY Category`, `COUNT`, `IS NULL` filters) are modelled with standard
SQL semantics.  Timestamps are threaded as an opaque optional string.
-/

/-- A row of the `Books` table (`models.py`, class `Book`).  `ISBN`, `Title`
and `Author` are `nullable=False`; `Publisher`, `Category`, `Status` and
`CreateDate` are nullable.  The spec refers to the status labels `"在架"` /
`"借出"` by their English glosses "on-shelf" / "borrowed". -/
structure Book where
  bookID : Nat
  isbn : String
  title : String
  author : String
  publisher : Option String
  category : Option String
  status : Option String
  createDate : Option String
deriving DecidableEq

/-- A row of the `BorrowRecords` table (`models.py`, class `BorrowRecord`).
`ReturnDate` is nullable; `null` marks an active loan. -/
structure BorrowRecord where
  recordID : Nat
  bookID : Nat
  borrowerName : String
  borrowDate : String
  returnDate : Option String
  notes : Option String
deriving DecidableEq

/-- The persistent store: both tables (in insertion order, as `query.all()`
returns them) and the next auto-increment `BookID`. -/
structure DBState where
  books : List Book
  records : List BorrowRecord
  nextId : Nat
deriving DecidableEq

/-- A JSON object body, as the handlers read it via `request.get_json()`:
an association list from keys to string values.  (All fields of this API are
strings; a key that is absent from the list models an absent JSON key.) -/
abbrev Body := List (String × String)

/-- An HTTP JSON response body: a payload, an error object carrying an
error message, or a message object carrying a success message. -/
inductive Resp (α : Type) where
  | ok : α → Resp α
  | err : String → Resp α
  | msg : String → Resp α
deriving DecidableEq

/-- The status label the spec calls "on-shelf" (source literal `在架`). -/
def statusOnShelf : String := "在架"

/-- The status label the spec calls "borrowed" (source literal `借出`). -/
def statusBorrowed : String := "借出"

/-- The category bucket label the spec calls "uncategorized"
(source literal `未分类`). -/
def uncategorizedLabel : String := "未分类"

/-- The message of `add_book` for a missing or empty JSON body. -/
def noDataMsg : String := "没有提供数据"

/-- The validation message of `add_book` for a missing required field
(source f-string with the field name interpolated between single quotes). -/
def fieldRequiredMsg (f : String) : String := "字段 \x27" ++ f ++ "\x27 是必需的"

/-- The `str(e)` text of the `werkzeug` `NotFound` exception that
`get_or_404` raises; the blanket `except Exception` of every handler turns
it into the body of a 500 response. -/
def notFoundCaughtMsg : String :=
  "404 Not Found: The requested URL was not found on the server. If you entered the URL manually please check your spelling and try again."

/-- The `str(e)` text of the `TypeError` raised by the key-membership test when
`request.get_json()` returned `None` in `update_book`. -/
def typeErrorCaughtMsg : String := "argument of type \x27NoneType\x27 is not iterable"

/-- The conflict message of `delete_book` for a book with an unreturned loan. -/
def conflictMsg : String := "该图书有未归还的借阅记录，无法删除"

/-- The success message of `delete_book`. -/
def deleteOkMsg : String := "图书删除成功"

/-- The required fields of `add_book`, in the order its loop checks them. -/
def requiredFields : List String := ["isbn", "title", "author"]

/-- The first required field `f` for which `not data.get(f)` holds, i.e. the
key is absent or its value is the empty string (the falsy string). -/
def firstMissingField (d : Body) : Option String :=
  requiredFields.find? (fun f => (d.lookup f).getD "" == "")

/-- Handler `GET /api/books` (`get_all_books` in `app.py`): returns every
row of `Books`. -/
def get_all_books (s : DBState) : Nat × Resp (List Book) :=
  (200, .ok s.books)

/-- Handler `GET /api/books/<id>` (`get_book` in `app.py`).
`Book.query.get_or_404` raises `werkzeug.exceptions.NotFound` when the id is
absent; `NotFound` is a subclass of `Exception`, so the blanket
`except Exception` catches it and returns status 500 with `str(e)` instead
of letting the 404 propagate. -/
def get_book (s : DBState) (book_id : Nat) : Nat × Resp Book :=
  match s.books.find? (fun b => b.bookID == book_id) with
  | some b => (200, .ok b)
  | none => (500, .err notFoundCaughtMsg)

/-- The `Book(...)` constructor call inside `add_book`: required fields from
the body, optional fields via `data.get`, `Status` via
`data.get` with default `在架` for the status, `CreateDate` from the clock
(`now`). -/
def mkBook (s : DBState) (d : Body) (now : Option String) : Book :=
  { bookID := s.nextId
    isbn := (d.lookup "isbn").getD ""
    title := (d.lookup "title").getD ""
    author := (d.lookup "author").getD ""
    publisher := d.lookup "publisher"
    category := d.lookup "category"
    status := some ((d.lookup "status").getD statusOnShelf)
    createDate := now }

/-- Handler `POST /api/books` (`add_book` in `app.py`): reject an absent or
empty body (`if not data`), then reject on the first required field with a
falsy value, else insert a new row and return it with status 201. -/
def add_book (s : DBState) (data : Option Body) (now : Option String) :
    (Nat × Resp Book) × DBState :=
  match data with
  | none => ((400, .err noDataMsg), s)
  | some d =>
    if d.isEmpty then ((400, .err noDataMsg), s)
    else
      match firstMissingField d with
      | some f => ((400, .err (fieldRequiredMsg f)), s)
      | none =>
        let book := mkBook s d now
        ((201, .ok book),
         { s with books := s.books ++ [book], nextId := s.nextId + 1 })

/-- The chain of key-presence-conditioned assignments in `update_book`:
a field is assigned exactly when its key is present in the body. -/
def applyUpdates (b : Book) (d : Body) : Book :=
  let b := match d.lookup "isbn" with | some v => { b with isbn := v } | none => b
  let b := match d.lookup "title" with | some v => { b with title := v } | none => b
  let b := match d.lookup "author" with | some v => { b with author := v } | none => b
  let b := match d.lookup "publisher" with | some v => { b with publisher := some v } | none => b
  let b := match d.lookup "category" with | some v => { b with category := some v } | none => b
  match d.lookup "status" with | some v => { b with status := some v } | none => b

/-- Handler `PUT /api/books/<id>` (`update_book` in `app.py`).  As in
`get_book`, the `NotFound` of `get_or_404` is caught by `except Exception`
and surfaces as a 500.  A `None` body makes the key-membership test raise
`TypeError`, likewise caught as a 500 (after rollback).  Otherwise the
fields present in the body are assigned and the row is committed.  (`BookID`
is the primary key, so at most one row matches.) -/
def update_book (s : DBState) (book_id : Nat) (data : Option Body) :
    (Nat × Resp Book) × DBState :=
  match s.books.find? (fun b => b.bookID == book_id) with
  | none => ((500, .err notFoundCaughtMsg), s)
  | some book =>
    match data with
    | none => ((500, .err typeErrorCaughtMsg), s)
    | some d =>
      let book2 := applyUpdates book d
      ((200, .ok book2),
       { s with books := s.books.map (fun b => if b.bookID == book_id then book2 else b) })

/-- Handler `DELETE /api/books/<id>` (`delete_book` in `app.py`).  Missing
id: the `NotFound` of `get_or_404` is caught as a 500 (as in `get_book`).
Then
`BorrowRecord.query.filter_by(BookID=book_id, ReturnDate=None).first()`
(an `IS NULL` filter) blocks the delete with a 400 if an active loan exists;
otherwise the row is deleted. -/
def delete_book (s : DBState) (book_id : Nat) :
    (Nat × Resp Unit) × DBState :=
  match s.books.find? (fun b => b.bookID == book_id) with
  | none => ((500, .err notFoundCaughtMsg), s)
  | some _ =>
    if s.records.any (fun r => r.bookID == book_id && r.returnDate.isNone) then
      ((400, .err conflictMsg), s)
    else
      ((200, .msg deleteOkMsg),
       { s with books := s.books.filter (fun b => !(b.bookID == book_id)) })

/-- SQL `LIKE` pattern matching over characters, standard semantics:
`%` matches any sequence (some suffix of the text continues the match),
`_` matches exactly one character, any other pattern character matches
itself.  (T-SQL additionally gives `[`…`]` a meaning; the claims only need
the standard wildcards.) -/
def likeMatch : List Char → List Char → Bool
  | [], t => t.isEmpty
  | p :: ps, t =>
    if p = '%' then t.tails.any (fun suf => likeMatch ps suf)
    else
      match t with
      | [] => false
      | c :: ts => if p = '_' then likeMatch ps ts else (p == c) && likeMatch ps ts

/-- String-level `LIKE`. -/
def sqlLike (pat s : String) : Bool := likeMatch pat.toList s.toList

/-- The pattern built by `search_books`: the keyword wrapped in percent
signs via an f-string. -/
def sqlLikePattern (kw : String) : String := "%" ++ kw ++ "%"

/-- A keyword free of `LIKE` wildcard characters; for such keywords (and
only such), `LIKE` with the wrapped pattern is substring containment. -/
def noWildcard (kw : String) : Bool :=
  kw.toList.all (fun c => !(c == '%') && !(c == '_'))

/-- Handler `GET /api/books/search` (`search_books` in `app.py`): an absent
keyword defaults to the empty string; a falsy keyword returns all rows,
otherwise the rows whose `Title` or `Author` matches the `LIKE` pattern. -/
def search_books (s : DBState) (keyword : String) : Nat × Resp (List Book) :=
  if keyword == "" then (200, .ok s.books)
  else
    (200, .ok (s.books.filter (fun b =>
      sqlLike (sqlLikePattern keyword) b.title ||
      sqlLike (sqlLikePattern keyword) b.author)))

/-- The body of `GET /api/books/stats/summary`. -/
structure Summary where
  totalBooks : Nat
  borrowedBooks : Nat
  availableBooks : Nat
deriving DecidableEq

/-- Handler `GET /api/books/stats/summary` (`get_summary_stats` in
`app.py`): `Book.query.count()`, the count filtered by `Status` = `借出` (SQL
equality, which no `NULL` status satisfies), and their difference. -/
def get_summary_stats (s : DBState) : Nat × Resp Summary :=
  let total := s.books.length
  let borrowed := (s.books.filter (fun b => b.status == some statusBorrowed)).length
  (200, .ok { totalBooks := total, borrowedBooks := borrowed,
              availableBooks := total - borrowed })

/-- The relabelling (Python `or` with default `未分类`) applied to each
group key: `NULL`
(Python `None`) and the empty string are the falsy values a `Category`
column can produce, and both are replaced by the label. -/
def categoryLabel : Option String → String
  | none => uncategorizedLabel
  | some c => if c == "" then uncategorizedLabel else c

/-- Handler `GET /api/books/stats/category` (`get_category_stats` in
`app.py`): `SELECT Category, COUNT(*) FROM Books GROUP BY Category`, one
output entry per distinct `Category` value (SQL groups all `NULL`s together
and groups the empty string as its own ordinary value), each relabelled
through
`categoryLabel`.  Group order is not contractual. -/
def get_category_stats (s : DBState) : Nat × Resp (List (String × Nat)) :=
  let cats := s.books.map (fun b => b.category)
  (200, .ok (cats.dedup.map (fun c => (categoryLabel c, cats.count c))))

/-- Primary-key well-formedness of the `Books` table: `BookID`s are
pairwise distinct (the DB enforces this; it is an invariant of the store). -/
def BooksWF (s : DBState) : Prop :=
  s.books.Pairwise (fun a b => a.bookID ≠ b.bookID)

instance (s : DBState) : Decidable (BooksWF s) := by
  unfold BooksWF; infer_instance

/-- Concrete fixture: a stored book with title `A` and author `B`. -/
def bookA : Book := ⟨1, "isbn1", "A", "B", none, none, some statusOnShelf, none⟩

/-- Concrete fixture: a store holding just `bookA`. -/
def stateA : DBState := ⟨[bookA], [], 2⟩

/-- Concrete fixture: the store right after table creation, before any row. -/
def emptyState : DBState := ⟨[], [], 1⟩

/-- Concrete fixture: an active loan (`ReturnDate` null) of `bookA`. -/
def loanRecord : BorrowRecord := ⟨1, 1, "borrower", "2024-01-01", none, none⟩

/-- Concrete fixture: a store where `bookA` has an unreturned loan. -/
def stateLoan : DBState := ⟨[bookA], [loanRecord], 2⟩

/-- Concrete fixture: a book whose `Category` is the empty string. -/
def bookEmptyCat : Book := ⟨1, "i", "t", "a", none, some "", some statusOnShelf, none⟩

/-- Concrete fixture: a book whose `Category` is null. -/
def bookNullCat : Book := ⟨2, "i", "t", "a", none, none, some statusOnShelf, none⟩

/-- Concrete fixture: a store with one empty-string-category book and one
null-category book. -/
def stateCats : DBState := ⟨[bookEmptyCat, bookNullCat], [], 3⟩

theorem strToList_append (a b : String) : (a ++ b).toList = a.toList ++ b.toList :=
  String.data_append a b

theorem find?_eq_some_of_pairwise (l : List Book) (bk : Book) (bid : Nat)
    (hwf : l.Pairwise (fun a b => a.bookID ≠ b.bookID))
    (hmem : bk ∈ l) (hid : bk.bookID = bid) :
    l.find? (fun b => b.bookID == bid) = some bk := by
  induction l with
  | nil => cases hmem
  | cons a l ih =>
    have hpw := List.pairwise_cons.mp hwf
    rcases List.mem_cons.mp hmem with rfl | hmem2
    · exact List.find?_cons_of_pos _ (by simp [hid])
    · have hne : ¬ ((fun b => b.bookID == bid) a = true) := by
        simp only [beq_iff_eq]
        rw [← hid]
        exact hpw.1 bk hmem2
      rw [List.find?_cons_of_neg (p := fun b => b.bookID == bid) l hne]
      exact ih hpw.2 hmem2

theorem applyUpdates_isbn (bk : Book) (d : Body) :
    (applyUpdates bk d).isbn = (d.lookup "isbn").elim bk.isbn id := by
  unfold applyUpdates
  cases d.lookup "isbn" <;> cases d.lookup "title" <;> cases d.lookup "author" <;>
    cases d.lookup "publisher" <;> cases d.lookup "category" <;>
    cases d.lookup "status" <;> rfl

theorem applyUpdates_title (bk : Book) (d : Body) :
    (applyUpdates bk d).title = (d.lookup "title").elim bk.title id := by
  unfold applyUpdates
  cases d.lookup "isbn" <;> cases d.lookup "title" <;> cases d.lookup "author" <;>
    cases d.lookup "publisher" <;> cases d.lookup "category" <;>
    cases d.lookup "status" <;> rfl

theorem applyUpdates_author (bk : Book) (d : Body) :
    (applyUpdates bk d).author = (d.lookup "author").elim bk.author id := by
  unfold applyUpdates
  cases d.lookup "isbn" <;> cases d.lookup "title" <;> cases d.lookup "author" <;>
    cases d.lookup "publisher" <;> cases d.lookup "category" <;>
    cases d.lookup "status" <;> rfl

theorem applyUpdates_publisher (bk : Book) (d : Body) :
    (applyUpdates bk d).publisher = (d.lookup "publisher").elim bk.publisher some := by
  unfold applyUpdates
  cases d.lookup "isbn" <;> cases d.lookup "title" <;> cases d.lookup "author" <;>
    cases d.lookup "publisher" <;> cases d.lookup "category" <;>
    cases d.lookup "status" <;> rfl

theorem applyUpdates_category (bk : Book) (d : Body) :
    (applyUpdates bk d).category = (d.lookup "category").elim bk.category some := by
  unfold applyUpdates
  cases d.lookup "isbn" <;> cases d.lookup "title" <;> cases d.lookup "author" <;>
    cases d.lookup "publisher" <;> cases d.lookup "category" <;>
    cases d.lookup "status" <;> rfl

theorem applyUpdates_status (bk : Book) (d : Body) :
    (applyUpdates bk d).status = (d.lookup "status").elim bk.status some := by
  unfold applyUpdates
  cases d.lookup "isbn" <;> cases d.lookup "title" <;> cases d.lookup "author" <;>
    cases d.lookup "publisher" <;> cases d.lookup "category" <;>
    cases d.lookup "status" <;> rfl

theorem applyUpdates_bookID (bk : Book) (d : Body) :
    (applyUpdates bk d).bookID = bk.bookID := by
  unfold applyUpdates
  cases d.lookup "isbn" <;> cases d.lookup "title" <;> cases d.lookup "author" <;>
    cases d.lookup "publisher" <;> cases d.lookup "category" <;>
    cases d.lookup "status" <;> rfl

theorem applyUpdates_createDate (bk : Book) (d : Body) :
    (applyUpdates bk d).createDate = bk.createDate := by
  unfold applyUpdates
  cases d.lookup "isbn" <;> cases d.lookup "title" <;> cases d.lookup "author" <;>
    cases d.lookup "publisher" <;> cases d.lookup "category" <;>
    cases d.lookup "status" <;> rfl

theorem likeMatch_percent (ps : List Char) (t : List Char) :
    likeMatch ('%' :: ps) t = true ↔ ∃ suf, suf <:+ t ∧ likeMatch ps suf = true := by
  simp [likeMatch, List.any_eq_true, List.mem_tails]

theorem likeMatch_plain (ps : List Char) (hps : ∀ c ∈ ps, c ≠ '%' ∧ c ≠ '_') :
    ∀ t, (likeMatch (ps ++ ['%']) t = true ↔ ps <+: t) := by
  induction ps with
  | nil =>
    intro t
    have h0 : ([] : List Char) ∈ t.tails := (List.mem_tails _ _).mpr List.nil_suffix
    simp only [List.nil_append, likeMatch, List.any_eq_true]
    constructor
    · intro _; exact List.nil_prefix
    · intro _
      rw [if_pos trivial]
      exact List.any_eq_true.mpr ⟨[], h0, rfl⟩
  | cons p ps ih =>
    intro t
    have hp := hps p (List.mem_cons_self _ _)
    have hps2 : ∀ c ∈ ps, c ≠ '%' ∧ c ≠ '_' := fun c hc => hps c (List.mem_cons_of_mem _ hc)
    cases t with
    | nil =>
      rw [List.cons_append, likeMatch]
      simp [hp.1]
    | cons c ts =>
      rw [List.cons_append, likeMatch]
      simp only [hp.1, hp.2, if_false, Bool.and_eq_true, beq_iff_eq]
      rw [List.cons_prefix_cons]
      exact and_congr Iff.rfl (ih hps2 ts)

theorem likeMatch_infix_iff (kw t : String) (hw : noWildcard kw = true) :
    sqlLike (sqlLikePattern kw) t = true ↔ kw.toList <:+: t.toList := by
  have hchars : ∀ c ∈ kw.toList, c ≠ '%' ∧ c ≠ '_' := by
    intro c hc
    have := (List.all_eq_true.mp hw) c hc
    simpa using this
  have hpat : (sqlLikePattern kw).toList = '%' :: (kw.toList ++ ['%']) := by
    rw [sqlLikePattern, strToList_append, strToList_append]
    rfl
  rw [sqlLike, hpat, likeMatch_percent]
  constructor
  · rintro ⟨suf, hsuf, hm⟩
    exact List.infix_iff_prefix_suffix.mpr ⟨suf, (likeMatch_plain _ hchars suf).mp hm, hsuf⟩
  · intro hinf
    obtain ⟨mid, hpre, hsuf⟩ := List.infix_iff_prefix_suffix.mp hinf
    exact ⟨mid, hsuf, (likeMatch_plain _ hchars mid).mpr hpre⟩

theorem sqlLike_eq_decide (kw t : String) (hw : noWildcard kw = true) :
    sqlLike (sqlLikePattern kw) t = decide (kw.toList <:+: t.toList) := by
  rcases hb : sqlLike (sqlLikePattern kw) t with _ | _
  · have hni : ¬ kw.toList <:+: t.toList := fun hinf => by
      rw [(likeMatch_infix_iff kw t hw).mpr hinf] at hb
      cases hb
    symm
    simp only [decide_eq_false_iff_not]
    exact hni
  · symm
    simp only [decide_eq_true_eq]
    exact (likeMatch_infix_iff kw t hw).mp hb

theorem categoryLabel_ne_empty (c : Option String) : categoryLabel c ≠ "" := by
  cases c with
  | none =>
    simp [categoryLabel, uncategorizedLabel]
  | some str =>
    simp only [categoryLabel]
    split
    · simp [uncategorizedLabel]
    · rename_i h
      simpa using h

theorem count_beq_irrel {α : Type _} (i1 i2 : BEq α) (h1 : @LawfulBEq α i1)
    (h2 : @LawfulBEq α i2) (a : α) (l : List α) :
    @List.count α i1 a l = @List.count α i2 a l := by
  rw [@List.count_eq_countP α i1 a l, @List.count_eq_countP α i2 a l]
  apply List.countP_congr
  intro x _
  constructor
  · intro hx
    have hxa : x = a := @LawfulBEq.eq_of_beq α i1 h1 x a hx
    subst hxa
    exact @LawfulBEq.rfl α i2 h2 x
  · intro hx
    have hxa : x = a := @LawfulBEq.eq_of_beq α i2 h2 x a hx
    subst hxa
    exact @LawfulBEq.rfl α i1 h1 x

/-- Claim C1 (code bug): for an id absent from the Books table, each of
GET, PUT and DELETE `/api/books/1` returns HTTP 500 — not the 404 the spec
requires — because the `NotFound` raised by `get_or_404` is itself an
`Exception` and is captured by the blanket `except Exception` of each
handler
clause, which maps it to a 500 error body. -/
theorem missing_id_routes_return_500 :
    (get_book emptyState 1).1 = 500 ∧
    (update_book emptyState 1 (some [("title", "x")])).1.1 = 500 ∧
    (delete_book emptyState 1).1.1 = 500 ∧ (500 : Nat) ≠ 404 := by
  decide

/-- Claim C2, counterexample: the empty JSON object lacks the required
field `isbn`, yet `add_book` answers with the generic no-data message,
which does not name `isbn` (no row is inserted; the state is returned
unchanged). -/
theorem add_book_empty_body_counterexample :
    add_book emptyState (some []) none = ((400, Resp.err noDataMsg), emptyState) ∧
    ¬ ("isbn".toList <:+: noDataMsg.toList) := by
  decide

/-- Claim C2, amended: for a non-empty body whose first missing-or-empty
required field (in the order isbn, title, author) is `f`, `add_book`
returns 400 with a message naming `f` and inserts no row; an absent or
empty body also yields 400 with no insertion, but with a generic
no-data message. -/
theorem add_book_missing_field_400 (s : DBState) (d : Body) (f : String)
    (now : Option String) (hne : d ≠ []) (hf : firstMissingField d = some f) :
    add_book s (some d) now = ((400, Resp.err (fieldRequiredMsg f)), s) ∧
    (d.lookup f).getD "" = "" ∧
    f ∈ requiredFields ∧
    f.toList <:+: (fieldRequiredMsg f).toList ∧
    add_book s none now = ((400, Resp.err noDataMsg), s) ∧
    add_book s (some []) now = ((400, Resp.err noDataMsg), s) := by
  have he : d.isEmpty = false := List.isEmpty_eq_false.mpr hne
  refine ⟨by simp [add_book, he, hf], ?_, List.mem_of_find?_eq_some hf, ?_, rfl, rfl⟩
  · have hp := List.find?_some hf
    simpa using hp
  · refine ⟨"字段 \x27".toList, "\x27 是必需的".toList, ?_⟩
    rw [fieldRequiredMsg, strToList_append, strToList_append]

/-- Witness for C2 at the concrete body that only carries a title. -/
theorem add_book_missing_field_400_witness :
    (([("title", "x")] : Body) ≠ [] ∧
     firstMissingField [("title", "x")] = some "isbn") ∧
    (add_book emptyState (some [("title", "x")]) none =
        ((400, Resp.err (fieldRequiredMsg "isbn")), emptyState) ∧
     (([("title", "x")] : Body).lookup "isbn").getD "" = "" ∧
     "isbn" ∈ requiredFields ∧
     "isbn".toList <:+: (fieldRequiredMsg "isbn").toList ∧
     add_book emptyState none none = ((400, Resp.err noDataMsg), emptyState) ∧
     add_book emptyState (some []) none = ((400, Resp.err noDataMsg), emptyState)) :=
  ⟨⟨by decide, by decide⟩,
   add_book_missing_field_400 emptyState [("title", "x")] "isbn" none
     (by decide) (by decide)⟩

/-- Claim C3: deleting a book that has an active (null `ReturnDate`)
borrow record fails with HTTP 400 and the explanatory conflict message,
and leaves the store — in particular the Book row — unchanged. -/
theorem delete_book_active_loan_conflict (s : DBState) (bid : Nat)
    (hbook : ∃ b ∈ s.books, b.bookID = bid)
    (hrec : ∃ r ∈ s.records, r.bookID = bid ∧ r.returnDate = none) :
    delete_book s bid = ((400, Resp.err conflictMsg), s) := by
  obtain ⟨b, hb, hbid⟩ := hbook
  obtain ⟨r, hr, hrid, hret⟩ := hrec
  have hfind : (s.books.find? (fun b => b.bookID == bid)).isSome :=
    List.find?_isSome.mpr ⟨b, hb, by simp [hbid]⟩
  have hany : s.records.any (fun r => r.bookID == bid && r.returnDate.isNone) = true :=
    List.any_eq_true.mpr ⟨r, hr, by simp [hrid, hret]⟩
  rcases hs : s.books.find? (fun b => b.bookID == bid) with _ | b2
  · rw [hs] at hfind; simp at hfind
  · simp [delete_book, hs, hany]

/-- Witness for C3 at the store where `bookA` has an unreturned loan. -/
theorem delete_book_active_loan_conflict_witness :
    delete_book stateLoan 1 = ((400, Resp.err conflictMsg), stateLoan) :=
  delete_book_active_loan_conflict stateLoan 1 (by decide) (by decide)

/-- Claim C4: on an existing book, `update_book` with any subset of the
six updatable fields returns 200 with a book in which each field present
in the body holds the supplied value and each absent field (as well as
the id and creation date) keeps its pre-update value, and stores that
book. -/
theorem update_book_sparse (s : DBState) (bid : Nat) (d : Body) (bk : Book)
    (hwf : BooksWF s) (hmem : bk ∈ s.books) (hid : bk.bookID = bid) :
    ∃ b2 s2, update_book s bid (some d) = ((200, Resp.ok b2), s2) ∧
      b2 ∈ s2.books ∧
      (∀ v, d.lookup "isbn" = some v → b2.isbn = v) ∧
      (d.lookup "isbn" = none → b2.isbn = bk.isbn) ∧
      (∀ v, d.lookup "title" = some v → b2.title = v) ∧
      (d.lookup "title" = none → b2.title = bk.title) ∧
      (∀ v, d.lookup "author" = some v → b2.author = v) ∧
      (d.lookup "author" = none → b2.author = bk.author) ∧
      (∀ v, d.lookup "publisher" = some v → b2.publisher = some v) ∧
      (d.lookup "publisher" = none → b2.publisher = bk.publisher) ∧
      (∀ v, d.lookup "category" = some v → b2.category = some v) ∧
      (d.lookup "category" = none → b2.category = bk.category) ∧
      (∀ v, d.lookup "status" = some v → b2.status = some v) ∧
      (d.lookup "status" = none → b2.status = bk.status) ∧
      b2.bookID = bk.bookID ∧ b2.createDate = bk.createDate := by
  have hfind := find?_eq_some_of_pairwise s.books bk bid hwf hmem hid
  refine ⟨applyUpdates bk d, { s with books := s.books.map (fun b => if b.bookID == bid then applyUpdates bk d else b) }, ?_, ?_, ?_, ?_, ?_, ?_, ?_, ?_, ?_, ?_, ?_, ?_, ?_, ?_, ?_, ?_⟩
  · unfold update_book
    rw [hfind]
  · exact List.mem_map.mpr ⟨bk, hmem, by simp [hid]⟩
  · intro v h; simp [applyUpdates_isbn, h]
  · intro h; simp [applyUpdates_isbn, h]
  · intro v h; simp [applyUpdates_title, h]
  · intro h; simp [applyUpdates_title, h]
  · intro v h; simp [applyUpdates_author, h]
  · intro h; simp [applyUpdates_author, h]
  · intro v h; simp [applyUpdates_publisher, h]
  · intro h; simp [applyUpdates_publisher, h]
  · intro v h; simp [applyUpdates_category, h]
  · intro h; simp [applyUpdates_category, h]
  · intro v h; simp [applyUpdates_status, h]
  · intro h; simp [applyUpdates_status, h]
  · exact applyUpdates_bookID bk d
  · exact applyUpdates_createDate bk d

/-- Witness for C4: updating only the title of `bookA`. -/
theorem update_book_sparse_witness :
    (BooksWF stateA ∧ bookA ∈ stateA.books ∧ bookA.bookID = 1) ∧
    (∃ b2 s2,
      update_book stateA 1 (some [("title", "T2")]) = ((200, Resp.ok b2), s2) ∧
      b2 ∈ s2.books ∧
      (∀ v, ([("title", "T2")] : Body).lookup "isbn" = some v → b2.isbn = v) ∧
      (([("title", "T2")] : Body).lookup "isbn" = none → b2.isbn = bookA.isbn) ∧
      (∀ v, ([("title", "T2")] : Body).lookup "title" = some v → b2.title = v) ∧
      (([("title", "T2")] : Body).lookup "title" = none → b2.title = bookA.title) ∧
      (∀ v, ([("title", "T2")] : Body).lookup "author" = some v → b2.author = v) ∧
      (([("title", "T2")] : Body).lookup "author" = none → b2.author = bookA.author) ∧
      (∀ v, ([("title", "T2")] : Body).lookup "publisher" = some v → b2.publisher = some v) ∧
      (([("title", "T2")] : Body).lookup "publisher" = none → b2.publisher = bookA.publisher) ∧
      (∀ v, ([("title", "T2")] : Body).lookup "category" = some v → b2.category = some v) ∧
      (([("title", "T2")] : Body).lookup "category" = none → b2.category = bookA.category) ∧
      (∀ v, ([("title", "T2")] : Body).lookup "status" = some v → b2.status = some v) ∧
      (([("title", "T2")] : Body).lookup "status" = none → b2.status = bookA.status) ∧
      b2.bookID = bookA.bookID ∧ b2.createDate = bookA.createDate) :=
  ⟨⟨by decide, by decide, by decide⟩,
   update_book_sparse stateA 1 [("title", "T2")] bookA
     (by decide) (by decide) (by decide)⟩

/-- Claim C5, counterexample: the non-empty keyword `%` is a `LIKE`
wildcard; `search_books` returns `bookA` even though neither its title
`A` nor its author `B` contains `%` as a substring, so the result is not
characterised by substring containment for arbitrary keywords. -/
theorem search_books_wildcard_counterexample :
    search_books stateA "%" = (200, Resp.ok [bookA]) ∧
    ¬ ("%".toList <:+: "A".toList) ∧ ¬ ("%".toList <:+: "B".toList) ∧
    ("%" : String) ≠ "" := by
  decide

/-- Claim C5, amended: with an empty (or absent, which parses to empty)
keyword, `search_books` coincides with `get_all_books`; with a non-empty
keyword containing no `LIKE` wildcard character, it returns exactly the
books whose title or author contains the keyword as a substring. -/
theorem search_books_substring (s : DBState) (kw : String)
    (hk : kw ≠ "") (hw : noWildcard kw = true) :
    search_books s "" = get_all_books s ∧
    search_books s kw = (200, Resp.ok (s.books.filter (fun b =>
      decide (kw.toList <:+: b.title.toList) ||
      decide (kw.toList <:+: b.author.toList)))) := by
  refine ⟨rfl, ?_⟩
  have hne : (kw == "") = false := by simp [hk]
  simp only [search_books, hne, Bool.false_eq_true, if_false]
  have hfeq : s.books.filter (fun b =>
      sqlLike (sqlLikePattern kw) b.title || sqlLike (sqlLikePattern kw) b.author) =
      s.books.filter (fun b =>
      decide (kw.toList <:+: b.title.toList) || decide (kw.toList <:+: b.author.toList)) :=
    List.filter_congr (fun b _ => by
      rw [sqlLike_eq_decide kw b.title hw, sqlLike_eq_decide kw b.author hw])
  rw [hfeq]

/-- Witness for C5 at the wildcard-free keyword `A` over `stateA`. -/
theorem search_books_substring_witness :
    (("A" : String) ≠ "" ∧ noWildcard "A" = true) ∧
    (search_books stateA "" = get_all_books stateA ∧
     search_books stateA "A" = (200, Resp.ok (stateA.books.filter (fun b =>
       decide ("A".toList <:+: b.title.toList) ||
       decide ("A".toList <:+: b.author.toList))))) :=
  ⟨⟨by decide, by decide⟩, search_books_substring stateA "A" (by decide) (by decide)⟩

/-- Claim C6: the summary statistics always satisfy
totalBooks = borrowedBooks + availableBooks, because availableBooks is
computed as the difference and the borrowed count never exceeds the
total. -/
theorem summary_total_split (s : DBState) :
    ∃ sm, get_summary_stats s = (200, Resp.ok sm) ∧
      sm.totalBooks = sm.borrowedBooks + sm.availableBooks := by
  refine ⟨_, rfl, ?_⟩
  have hle : (s.books.filter (fun b => b.status == some statusBorrowed)).length ≤
      s.books.length := List.length_filter_le _ _
  simp only [get_summary_stats]
  omega

/-- Claim C7: borrowedBooks is exactly the number of books whose status
equals the borrowed label (`借出`, which the spec glosses as
"borrowed") — an exact string comparison. -/
theorem summary_borrowed_count (s : DBState) :
    ∃ sm, get_summary_stats s = (200, Resp.ok sm) ∧
      sm.borrowedBooks =
        (s.books.filter (fun b => decide (b.status = some statusBorrowed))).length := by
  refine ⟨_, rfl, ?_⟩
  simp only [get_summary_stats]
  congr 1
  exact List.filter_congr (fun b _ => Bool.beq_eq_decide_eq _ _)

/-- Claim C8: a valid create request without a status field produces a
book whose stored and returned status is the on-shelf label (`在架`,
which the spec glosses as "on-shelf"). -/
theorem add_book_default_status (s : DBState) (d : Body) (now : Option String)
    (hne : d ≠ []) (hval : firstMissingField d = none) (hst : d.lookup "status" = none) :
    ∃ b s2, add_book s (some d) now = ((201, Resp.ok b), s2) ∧
      b.status = some statusOnShelf ∧ b ∈ s2.books := by
  have he : d.isEmpty = false := List.isEmpty_eq_false.mpr hne
  refine ⟨mkBook s d now, { s with books := s.books ++ [mkBook s d now], nextId := s.nextId + 1 }, ?_, ?_, ?_⟩
  · simp [add_book, he, hval]
  · simp [mkBook, hst]
  · simp

/-- Witness for C8 at a minimal valid body without a status key. -/
theorem add_book_default_status_witness :
    (([("isbn", "1"), ("title", "t"), ("author", "a")] : Body) ≠ [] ∧
     firstMissingField [("isbn", "1"), ("title", "t"), ("author", "a")] = none ∧
     ([("isbn", "1"), ("title", "t"), ("author", "a")] : Body).lookup "status" = none) ∧
    (∃ b s2,
      add_book emptyState (some [("isbn", "1"), ("title", "t"), ("author", "a")]) none =
        ((201, Resp.ok b), s2) ∧
      b.status = some statusOnShelf ∧ b ∈ s2.books) :=
  ⟨⟨by decide, by decide, by decide⟩,
   add_book_default_status emptyState [("isbn", "1"), ("title", "t"), ("author", "a")]
     none (by decide) (by decide) (by decide)⟩

/-- Claim C9: the category statistics counts sum to the total number of
books (the group-by partitions the table), and whenever a book has a
null category, the output contains the bucket labeled `未分类` (the
spec gloss "uncategorized") whose count is the positive number of
null-category books. -/
theorem category_stats_partition (s : DBState) :
    ∃ stats, get_category_stats s = (200, Resp.ok stats) ∧
      (stats.map Prod.snd).sum = s.books.length ∧
      ∀ b ∈ s.books, b.category = none →
        (uncategorizedLabel,
          (s.books.map (fun x => x.category)).count (none : Option String)) ∈ stats ∧
        0 < (s.books.map (fun x => x.category)).count (none : Option String) := by
  refine ⟨_, rfl, ?_, ?_⟩
  · show (((s.books.map (fun b => b.category)).dedup.map
      (fun c => (categoryLabel c, (s.books.map (fun b => b.category)).count c))).map
        Prod.snd).sum = s.books.length
    rw [List.map_map]
    have hcomp : (Prod.snd ∘ fun c => (categoryLabel c,
        (s.books.map (fun b => b.category)).count c)) =
        fun c => (s.books.map (fun b => b.category)).count c := rfl
    have h := List.sum_map_count_dedup_eq_length (s.books.map (fun b => b.category))
    rw [List.length_map] at h
    rw [hcomp]
    refine Eq.trans ?_ h
    congr 1
    apply List.map_congr_left
    intro c _
    exact count_beq_irrel _ _ inferInstance inferInstance c _
  · intro b hb hc
    have hmem : (none : Option String) ∈ (s.books.map (fun b => b.category)).dedup :=
      List.mem_dedup.mpr (List.mem_map.mpr ⟨b, hb, hc⟩)
    constructor
    · exact List.mem_map.mpr ⟨none, hmem, rfl⟩
    · exact List.count_pos_iff.mpr (List.mem_dedup.mp hmem)

/-- Witness for C9 at the store with one null-category book. -/
theorem category_stats_partition_witness :
    ∃ stats, get_category_stats stateCats = (200, Resp.ok stats) ∧
      (stats.map Prod.snd).sum = stateCats.books.length ∧
      ∀ b ∈ stateCats.books, b.category = none →
        (uncategorizedLabel,
          (stateCats.books.map (fun x => x.category)).count (none : Option String)) ∈ stats ∧
        0 < (stateCats.books.map (fun x => x.category)).count (none : Option String) :=
  category_stats_partition stateCats

/-- Claim C10, counterexample: with one empty-string-category book and
one null-category book, the group-by keeps the two groups separate; the
output carries two entries both labeled `未分类` with count 1 each, and
no merged bucket of count 2 — the empty-string book is not counted in
the same bucket as the null-category one. -/
theorem category_stats_two_buckets_counterexample :
    get_category_stats stateCats =
      (200, Resp.ok [(uncategorizedLabel, 1), (uncategorizedLabel, 1)]) ∧
    (uncategorizedLabel, 2) ∉ [(uncategorizedLabel, (1 : Nat)), (uncategorizedLabel, 1)] := by
  decide

/-- Claim C10, amended: the `row[0] or` relabelling applies to every
falsy category value, so no output bucket is labeled with the empty
string, and a book whose category is the empty string is counted under a
bucket labeled `未分类` — but that bucket is the empty-string group
itself, distinct from the null-category group. -/
theorem category_stats_falsy_relabel (s : DBState) :
    ∃ stats, get_category_stats s = (200, Resp.ok stats) ∧
      (∀ p ∈ stats, p.1 ≠ "") ∧
      ∀ b ∈ s.books, b.category = some "" →
        (uncategorizedLabel,
          (s.books.map (fun x => x.category)).count (some "")) ∈ stats := by
  refine ⟨_, rfl, ?_, ?_⟩
  · intro p hp
    obtain ⟨c, _, hc⟩ := List.mem_map.mp hp
    rw [← hc]
    exact categoryLabel_ne_empty c
  · intro b hb hc
    have hmem : (some "" : Option String) ∈ (s.books.map (fun b => b.category)).dedup :=
      List.mem_dedup.mpr (List.mem_map.mpr ⟨b, hb, hc⟩)
    exact List.mem_map.mpr ⟨some "", hmem, rfl⟩

/-- Witness for the amended C10 at the store with an empty-string
category book. -/
theorem category_stats_falsy_relabel_witness :
    ∃ stats, get_category_stats stateCats = (200, Resp.ok stats) ∧
      (∀ p ∈ stats, p.1 ≠ "") ∧
      ∀ b ∈ stateCats.books, b.category = some "" →
        (uncategorizedLabel,
          (stateCats.books.map (fun x => x.category)).count (some "")) ∈ stats :=
  category_stats_falsy_relabel stateCats
